import Mathlib

/-!
Verification development for the `pybwrap` sandbox argument builder
(`src/pybwrap/bwrap.py`).  Paths are modelled after Python's
`pathlib.PurePosixPath`: a path is an absolute-flag together with the list
of its components (pathlib drops `"."` components at parse time, so they
never appear in `parts`).  The builder state is the accumulated `args`
list of string tokens together with a counter modelling file-descriptor
allocation by `os.pipe`.
-/

/-- Model of `pathlib.PurePosixPath`: absolute flag plus components. -/
structure PPath where
  absolute : Bool
  parts : List String
deriving DecidableEq

/-- Model of `pathlib`'s `/` operator: an absolute right operand replaces
the left operand, a relative one is appended component-wise. -/
def PPath.join (p q : PPath) : PPath :=
  if q.absolute then q else ⟨p.absolute, p.parts ++ q.parts⟩

/-- Model of `PurePath.relative_to`: succeeds when `base` is a
component-wise ancestor (pathlib raises `ValueError` otherwise, modelled
by `none`). -/
def PPath.relative_to (p base : PPath) : Option PPath :=
  if p.absolute = base.absolute ∧ base.parts.isPrefixOf p.parts
  then some ⟨false, p.parts.drop base.parts.length⟩ else none

/-- Model of `str(path)` for the paths produced here. -/
def pathStr (p : PPath) : String :=
  if p.absolute then "/" ++ String.intercalate "/" p.parts
  else if p.parts.isEmpty then "." else String.intercalate "/" p.parts

/-- Host-side context read by the builder: `Path.home()`, the working
directory captured at construction, `os.getenv`, existence of
`/dev/nvidiactl`, the result of `glob("/dev/nvidia*")` and
`XDG_CACHE_HOME`. -/
structure Host where
  home : PPath
  cwd : PPath
  env : String → Option String
  nvidiactl : Bool
  globNvidiaDev : List PPath
  xdgCacheHome : PPath

/-- The fixed data of a `Bwrap` instance: the host context and the
container home directory `/home/<user>`. -/
structure Bwrap where
  host : Host
  home : PPath

/-- Mutable builder state: the `self.args` token list and a counter
modelling file descriptors returned by `os.pipe`. -/
structure BwrapState where
  args : List String
  nextFd : Nat
deriving DecidableEq

/-- `BindMode` from `bwrap.py`. -/
inductive BindMode where
  | RW
  | RO
  | DEV
deriving DecidableEq

/-- Option record merged by `Bwrap.bind` (`BIND_OPTIONS | kwargs`). -/
structure BindOpts where
  mode : BindMode
  asis : Bool
  src_anchor : Option PPath
  dest_anchor : Option PPath

/-- `Bwrap.resolve_path`: a relative path is first joined onto the anchor
(defaulting to the host working directory); with `translate` on, a path
under the host home is remapped below the container home, any other path
passes through unchanged. -/
def Bwrap.resolve_path (b : Bwrap) (path : PPath) (translate : Bool)
    (anchor : Option PPath) : PPath :=
  let path := if path.absolute then path else (anchor.getD b.host.cwd).join path
  if translate then
    match path.relative_to b.host.home with
    | some rel => b.home.join rel
    | none => path
  else path

/-- `Bwrap.format_bind_args`: token triple for one bind instruction. -/
def Bwrap.format_bind_args (src dest : String) (mode : BindMode) : List String :=
  match mode with
  | BindMode.RW => ["--bind-try", src, dest]
  | BindMode.RO => ["--ro-bind-try", src, dest]
  | BindMode.DEV => ["--dev-bind-try", src, dest]

/-- `Bwrap.bind`: destination defaults to the source; the source resolves
without translation, the destination with translation unless `asis`. -/
def Bwrap.bind (b : Bwrap) (src : PPath) (dest : Option PPath)
    (opts : BindOpts) (s : BwrapState) : BwrapState :=
  let dest := dest.getD src
  let src := b.resolve_path src false opts.src_anchor
  let dest := b.resolve_path dest (!opts.asis) opts.dest_anchor
  { s with args := s.args ++ Bwrap.format_bind_args (pathStr src) (pathStr dest) opts.mode }

/-- `Bwrap.symlink`: one `--symlink` instruction per pair, both endpoints
passed through `resolve_path` with its default `translate=True`. -/
def Bwrap.symlink (b : Bwrap) (pairs : List (PPath × PPath))
    (s : BwrapState) : BwrapState :=
  pairs.foldl (fun s pr =>
    { s with args := s.args ++
        ["--symlink", pathStr (b.resolve_path pr.1 true none),
         pathStr (b.resolve_path pr.2 true none)] }) s

/-- `Bwrap.setenv`: one `--setenv` instruction per pair, skipping `None`
values and the name `LC_ALL`. -/
def Bwrap.setenv (pairs : List (String × Option String))
    (s : BwrapState) : BwrapState :=
  pairs.foldl (fun s pr =>
    match pr.2 with
    | none => s
    | some v =>
      if pr.1 = "LC_ALL" then s
      else { s with args := s.args ++ ["--setenv", pr.1, v] }) s

/-- `Bwrap.unsetenv`: one `--unsetenv` instruction per name. -/
def Bwrap.unsetenv (vars : List String) (s : BwrapState) : BwrapState :=
  vars.foldl (fun s v => { s with args := s.args ++ ["--unsetenv", v] }) s

/-- `Bwrap.clearenv`: appends the single `--clearenv` token. -/
def Bwrap.clearenv (s : BwrapState) : BwrapState :=
  { s with args := s.args ++ ["--clearenv"] }

/-- `Bwrap.keepenv`: copies each variable set in the current process
environment into a `--setenv` instruction, skipping absent ones. -/
def Bwrap.keepenv (b : Bwrap) (vars : List String) (s : BwrapState) : BwrapState :=
  vars.foldl (fun s v =>
    match b.host.env v with
    | none => s
    | some value => { s with args := s.args ++ ["--setenv", v, value] }) s

/-- `Bwrap.openfd`: models `os.pipe` handing out a fresh descriptor. -/
def Bwrap.openfd (s : BwrapState) : Nat × BwrapState :=
  (s.nextFd, { s with nextFd := s.nextFd + 2 })

/-- `Bwrap.openfd_at`: resolves the destination, appends a `--perms`
token pair when permissions are given, then allocates a descriptor. -/
def Bwrap.openfd_at (b : Bwrap) (dest : PPath) (perms : Option String)
    (anchor : Option PPath) (asis : Bool) (s : BwrapState) :
    Nat × PPath × BwrapState :=
  let dest := b.resolve_path dest (!asis) anchor
  let s := match perms with
    | some p => { s with args := s.args ++ ["--perms", p] }
    | none => s
  let fd := Bwrap.openfd s
  (fd.1, dest, fd.2)

/-- `Bwrap.file`: emits one `--file` instruction. -/
def Bwrap.file (b : Bwrap) (dest : PPath) (perms : Option String)
    (anchor : Option PPath) (asis : Bool) (s : BwrapState) : BwrapState :=
  let r := b.openfd_at dest perms anchor asis s
  { r.2.2 with args := r.2.2.args ++ ["--file", toString r.1, pathStr r.2.1] }

/-- `Bwrap.bind_data`: emits `--ro-bind-data` for `RO`, `--bind-data` for
`RW`, and nothing for any other mode (the `if`/`elif` chain in the source
has no `else` branch). -/
def Bwrap.bind_data (b : Bwrap) (dest : PPath) (mode : BindMode)
    (perms : Option String) (anchor : Option PPath) (asis : Bool)
    (s : BwrapState) : BwrapState :=
  let r := b.openfd_at dest perms anchor asis s
  if mode = BindMode.RO then
    { r.2.2 with args := r.2.2.args ++ ["--ro-bind-data", toString r.1, pathStr r.2.1] }
  else if mode = BindMode.RW then
    { r.2.2 with args := r.2.2.args ++ ["--bind-data", toString r.1, pathStr r.2.1] }
  else r.2.2

/-- `Bwrap._init_container`: seeds `self.args` with the fixed base-system
instructions, then either emits the host-rootfs binds and symlinks, or —
when an alternate rootfs was requested — raises `NotImplementedError`
(the `Bool` component records the raise). -/
def Bwrap.init_container (b : Bwrap) (rootfs : Option PPath)
    (keep_child : Bool) (etc_binds : Option (List String)) (nextFd : Nat) :
    BwrapState × Bool :=
  let s : BwrapState :=
    ⟨["--tmpfs", "/tmp", "--proc", "/proc", "--dev", "/dev",
      "--dir", "/etc", "--dir", "/var", "--dir", "/run",
      "--unsetenv", "TMUX", "--seccomp", toString nextFd], nextFd + 2⟩
  match rootfs with
  | none =>
    let binds := ["/usr", "/opt", "/sys/block", "/sys/bus", "/sys/class",
      "/sys/dev", "/sys/devices", "/sys/module", "/var/empty",
      "/var/cache/man", "/var/lib/alsa", "/run/systemd/resolve"] ++
      (etc_binds.getD ["/etc"])
    let s := binds.foldl
      (fun s v => { s with args := s.args ++ ["--ro-bind-try", v, v] }) s
    let s := b.bind ⟨true, ["dev", "fuse"]⟩ none
      ⟨BindMode.DEV, false, none, none⟩ s
    let s := b.symlink
      [(⟨true, ["usr", "lib"]⟩, ⟨true, ["lib"]⟩),
       (⟨true, ["usr", "lib"]⟩, ⟨true, ["lib64"]⟩),
       (⟨true, ["usr", "bin"]⟩, ⟨true, ["bin"]⟩),
       (⟨true, ["usr", "bin"]⟩, ⟨true, ["sbin"]⟩),
       (⟨true, ["run"]⟩, ⟨true, ["var", "run"]⟩)] s
    let s := if keep_child then s
      else { s with args := s.args ++ ["--die-with-parent"] }
    (s, false)
  | some _ => (s, true)

/-!
The `BwrapSandbox.feature` decorator.  Generically, a feature is a list
of dependency names plus the instruction tokens its body appends; the
wrapper skips an already-enabled feature, otherwise marks it enabled,
activates the declared dependencies depth-first in declaration order, and
then runs the body.  Recursion is fuelled, mirroring Python's call stack.
-/

/-- A registered feature: declared dependencies and the instruction
tokens its body appends (for fixed parameters and host). -/
structure Feature (Name : Type) where
  depends : List Name
  instrs : List String

/-- Feature-activation state: accumulated instruction tokens plus the
`_enabled_features` set (as a list). -/
structure FState (Name : Type) where
  args : List String
  enabled : List Name
deriving DecidableEq

/-- The wrapper produced by the `feature` decorator: return immediately
when already enabled; otherwise mark enabled, activate each declared
dependency (depth-first), then append the body's instructions. -/
def BwrapSandbox.activate {Name : Type} [DecidableEq Name]
    (G : Name → Feature Name) : Nat → FState Name → Name → FState Name
  | 0, s, _ => s
  | fuel + 1, s, n =>
    if n ∈ s.enabled then s
    else
      let s1 : FState Name := ⟨s.args, n :: s.enabled⟩
      let s2 := (G n).depends.foldl (BwrapSandbox.activate G fuel) s1
      ⟨s2.args ++ (G n).instrs, s2.enabled⟩

/-!
Concrete model of the `gpu` and `nvidia` features, the subgraph the
vendor-graphics claim is about.  `nvidia` is declared with
`depends=("gpu",)` and its body raises `RuntimeError` when
`/dev/nvidiactl` does not exist on the host; the Boolean result records
that raise.  The exception propagates out of the wrapper, so all state
mutated before the raise (the enabled mark and any instructions appended
by the `gpu` dependency) is retained.
-/

/-- Names of the modelled features. -/
inductive Feat where
  | gpu
  | nvidia
deriving DecidableEq

/-- Sandbox state: builder state plus enabled features. -/
structure SbState where
  st : BwrapState
  enabled : List Feat
deriving DecidableEq

/-- Body of the `gpu` feature: dev-binds `/dev/dri` and every
`/dev/nvidia*` glob result, keeps `__GL_THREADED_OPTIMIZATION`, and with
`shader_cache` binds the four cache directories read-write. -/
def BwrapSandbox.gpu_body (b : Bwrap) (shader_cache : Bool)
    (s : BwrapState) : BwrapState :=
  let s := ((⟨true, ["dev", "dri"]⟩ : PPath) :: b.host.globNvidiaDev).foldl
    (fun s p => b.bind p none ⟨BindMode.DEV, false, none, none⟩ s) s
  let s := b.keepenv ["__GL_THREADED_OPTIMIZATION"] s
  if shader_cache then
    [b.host.xdgCacheHome.join ⟨false, ["mesa_shader_cache"]⟩,
     b.host.xdgCacheHome.join ⟨false, ["radv_builtin_shaders64"]⟩,
     b.host.xdgCacheHome.join ⟨false, ["nv"]⟩,
     b.host.xdgCacheHome.join ⟨false, ["nvidia"]⟩].foldl
      (fun s p => b.bind p none ⟨BindMode.RW, false, none, none⟩ s) s
  else s

/-- The decorated `gpu` feature (no declared dependencies). -/
def BwrapSandbox.gpu (b : Bwrap) (shader_cache : Bool) (s : SbState) : SbState :=
  if Feat.gpu ∈ s.enabled then s
  else
    let s1 : SbState := { s with enabled := Feat.gpu :: s.enabled }
    { s1 with st := BwrapSandbox.gpu_body b shader_cache s1.st }

/-- The decorated `nvidia` feature: skip when already enabled; otherwise
mark enabled, activate the `gpu` dependency (with its default
`shader_cache=True`), then run the body, which raises when
`/dev/nvidiactl` is absent and otherwise emits four `--setenv`
instructions.  The Boolean records whether `RuntimeError` was raised. -/
def BwrapSandbox.nvidia (b : Bwrap) (s : SbState) : SbState × Bool :=
  if Feat.nvidia ∈ s.enabled then (s, false)
  else
    let s1 : SbState := { s with enabled := Feat.nvidia :: s.enabled }
    let s2 := BwrapSandbox.gpu b true s1
    if b.host.nvidiactl then
      let pairs : List (String × Option String) :=
        [("__NV_PRIME_RENDER_OFFLOAD", some "1"),
         ("__GLX_VENDOR_LIBRARY_NAME", some "nvidia"),
         ("__VK_LAYER_NV_optimus", some "NVIDIA_only"),
         ("VK_DRIVER_FILES", some "/usr/share/vulkan/icd.d/nvidia_icd.json")]
      ({ s2 with st := Bwrap.setenv pairs s2.st }, false)
    else (s2, true)

/-!
Shared helper lemmas and concrete example instances used by the theorems
and their witnesses below.
-/

lemma dropLength_append (l t : List String) : (l ++ t).drop l.length = t := by
  induction l with
  | nil => simp
  | cons a l ih => simp [ih]

lemma isPrefixOf_append_self (l t : List String) : l.isPrefixOf (l ++ t) = true := by
  induction l with
  | nil => simp [List.isPrefixOf]
  | cons a l ih => simp [List.isPrefixOf, ih]

lemma isPrefixOf_self (l : List String) : l.isPrefixOf l = true := by
  have h := isPrefixOf_append_self l []
  rwa [List.append_nil] at h

/-- A fold appending per-element tokens equals one append of all the
tokens. -/
lemma foldl_append_tokens {α : Type} (f : BwrapState → α → BwrapState)
    (tok : α → List String)
    (hf : ∀ (s : BwrapState) (a : α), f s a = ⟨s.args ++ tok a, s.nextFd⟩) :
    ∀ (l : List α) (s : BwrapState),
      l.foldl f s = ⟨s.args ++ (l.map tok).flatten, s.nextFd⟩ := by
  intro l
  induction l with
  | nil => intro s; simp
  | cons a t ih =>
    intro s
    rw [List.foldl_cons, hf, ih]
    simp

/-- Example host: home `/home/alice`, working directory `/home/alice`,
only `Y=2` in the environment, no `/dev/nvidiactl`, no `/dev/nvidia*`
glob results, cache at `/home/alice/.cache`. -/
def hostA : Host :=
  ⟨⟨true, ["home", "alice"]⟩, ⟨true, ["home", "alice"]⟩,
   fun v => if v = "Y" then some "2" else none, false, [],
   ⟨true, ["home", "alice", ".cache"]⟩⟩

/-- Example instance with container home `/home/user`. -/
def bwA : Bwrap := ⟨hostA, ⟨true, ["home", "user"]⟩⟩

/-- Same host but with working directory `/data`, outside the home. -/
def hostB : Host :=
  ⟨⟨true, ["home", "alice"]⟩, ⟨true, ["data"]⟩,
   fun v => if v = "Y" then some "2" else none, false, [],
   ⟨true, ["home", "alice", ".cache"]⟩⟩

/-- Example instance over `hostB`. -/
def bwB : Bwrap := ⟨hostB, ⟨true, ["home", "user"]⟩⟩

/-- C1: for every absolute path `p`, `resolve_path p` with translation
returns the container home joined with the part of `p` below the host
home when `p` is strictly under the host home, returns `p` unchanged
when `p` is not under the host home, and returns exactly the container
home when `p` equals the host home. -/
theorem resolve_path_translate_cases (b : Bwrap) (p : PPath)
    (hp : p.absolute = true) (hh : b.host.home.absolute = true) :
    (b.host.home.parts.isPrefixOf p.parts = true ∧ p ≠ b.host.home →
      b.resolve_path p true none =
        b.home.join ⟨false, p.parts.drop b.host.home.parts.length⟩) ∧
    (b.host.home.parts.isPrefixOf p.parts = false →
      b.resolve_path p true none = p) ∧
    (p = b.host.home → b.resolve_path p true none = b.home) := by
  refine ⟨fun h => ?_, fun h => ?_, fun h => ?_⟩
  · simp [Bwrap.resolve_path, PPath.relative_to, hp, hh, h.1]
  · simp [Bwrap.resolve_path, PPath.relative_to, hp, hh, h]
  · subst h
    simp [Bwrap.resolve_path, PPath.relative_to, hp, isPrefixOf_self,
      PPath.join, List.drop_length]

/-- Witness for C1 at `/home/alice/docs` under host home `/home/alice`
with container home `/home/user`. -/
theorem resolve_path_translate_cases_witness :
    Bwrap.resolve_path bwA ⟨true, ["home", "alice", "docs"]⟩ true none =
      ⟨true, ["home", "user", "docs"]⟩ :=
  ((resolve_path_translate_cases bwA ⟨true, ["home", "alice", "docs"]⟩
    rfl rfl).1 ⟨by decide, by decide⟩).trans (by decide)

/-!
Monotonicity of the enabled set under activation, used for idempotence.
-/

lemma foldl_activate_enabled_mono {Name : Type} [DecidableEq Name]
    (G : Name → Feature Name) (fuel : Nat)
    (hmono : ∀ (s : FState Name) (m x : Name),
      x ∈ s.enabled → x ∈ (BwrapSandbox.activate G fuel s m).enabled) :
    ∀ (l : List Name) (s : FState Name) (x : Name),
      x ∈ s.enabled → x ∈ (l.foldl (BwrapSandbox.activate G fuel) s).enabled := by
  intro l
  induction l with
  | nil => intro s x hx; simpa using hx
  | cons a t ih =>
    intro s x hx
    rw [List.foldl_cons]
    exact ih _ x (hmono s a x hx)

lemma activate_enabled_mono {Name : Type} [DecidableEq Name]
    (G : Name → Feature Name) :
    ∀ (fuel : Nat) (s : FState Name) (m x : Name),
      x ∈ s.enabled → x ∈ (BwrapSandbox.activate G fuel s m).enabled := by
  intro fuel
  induction fuel with
  | zero => intro s m x hx; simpa [BwrapSandbox.activate] using hx
  | succ f ih =>
    intro s m x hx
    by_cases h : m ∈ s.enabled
    · simpa [BwrapSandbox.activate, h] using hx
    · simp only [BwrapSandbox.activate, h, if_false]
      exact foldl_activate_enabled_mono G f ih _ _ x (List.mem_cons_of_mem m hx)

lemma activate_mem_self {Name : Type} [DecidableEq Name]
    (G : Name → Feature Name) (f : Nat) (s : FState Name) (n : Name) :
    n ∈ (BwrapSandbox.activate G (f + 1) s n).enabled := by
  by_cases h : n ∈ s.enabled
  · rw [BwrapSandbox.activate, if_pos h]
    exact h
  · simp only [BwrapSandbox.activate, h, if_false]
    exact foldl_activate_enabled_mono G f (activate_enabled_mono G f) _ _ n
      (List.mem_cons_self n s.enabled)

/-- C2: activating the same feature twice in succession yields a state
identical to activating it once — the second activation is skipped
entirely, appending no instructions and running no dependencies. -/
theorem activate_twice_idempotent {Name : Type} [DecidableEq Name]
    (G : Name → Feature Name) (f g : Nat) (s : FState Name) (n : Name) :
    BwrapSandbox.activate G (g + 1) (BwrapSandbox.activate G (f + 1) s n) n =
      BwrapSandbox.activate G (f + 1) s n := by
  have h := activate_mem_self G f s n
  rw [BwrapSandbox.activate]
  simp [h]

/-- C3: for a dependency chain `A -> B -> C` (C depends on nothing, B on
C, A on B, all distinct), activating `A` from any state in which none of
the three is active appends C's instructions, then B's, then A's. -/
theorem activate_chain_order {Name : Type} [DecidableEq Name]
    (G : Name → Feature Name) (A B C : Name) (iA iB iC : List String)
    (hA : G A = ⟨[B], iA⟩) (hB : G B = ⟨[C], iB⟩) (hC : G C = ⟨[], iC⟩)
    (hAB : A ≠ B) (hAC : A ≠ C) (hBC : B ≠ C) (f : Nat) (s : FState Name)
    (hnA : A ∉ s.enabled) (hnB : B ∉ s.enabled) (hnC : C ∉ s.enabled) :
    (BwrapSandbox.activate G (f + 1 + 1 + 1) s A).args =
      s.args ++ iC ++ iB ++ iA := by
  simp [BwrapSandbox.activate, hA, hB, hC, hnA, hnB, hnC,
    Ne.symm hAB, Ne.symm hAC, Ne.symm hBC, List.mem_cons]

/-- Chain `0 -> 1 -> 2` used to witness C3. -/
def chainG : Nat → Feature Nat := fun n =>
  if n = 0 then ⟨[1], ["a"]⟩ else if n = 1 then ⟨[2], ["b"]⟩ else ⟨[], ["c"]⟩

/-- Witness for C3 on the chain `0 -> 1 -> 2` from the empty state. -/
theorem activate_chain_order_witness :
    (BwrapSandbox.activate chainG 3 ⟨["z"], []⟩ 0).args =
      ["z"] ++ ["c"] ++ ["b"] ++ ["a"] :=
  activate_chain_order chainG 0 1 2 ["a"] ["b"] ["c"] rfl rfl rfl
    (by decide) (by decide) (by decide) 0 ⟨["z"], []⟩
    (by simp) (by simp) (by simp)

/-- C4 counterexample: on `bwA` (no `/dev/nvidiactl`) activating the
`nvidia` feature from a fresh state raises the fault, yet the
instruction list is NOT unchanged — the `gpu` dependency's instructions
were appended before the body raised. -/
theorem nvidia_missing_device_appends_instructions :
    (BwrapSandbox.nvidia bwA ⟨⟨[], 0⟩, []⟩).2 = true ∧
    (BwrapSandbox.nvidia bwA ⟨⟨[], 0⟩, []⟩).1.st.args ≠ [] := by
  decide

/-- C4 (amended): activating `nvidia` on a host without `/dev/nvidiactl`
raises the fault and appends no instructions of its own; when its `gpu`
dependency is already active at call time, the instruction list is
unchanged. -/
theorem nvidia_fault_no_own_instructions (b : Bwrap) (s : SbState)
    (hdev : b.host.nvidiactl = false) (hgpu : Feat.gpu ∈ s.enabled)
    (hnv : Feat.nvidia ∉ s.enabled) :
    (BwrapSandbox.nvidia b s).2 = true ∧
    (BwrapSandbox.nvidia b s).1.st.args = s.st.args := by
  simp [BwrapSandbox.nvidia, BwrapSandbox.gpu, hdev, hgpu, hnv, List.mem_cons]

/-- Witness for C4 with `gpu` already active. -/
theorem nvidia_fault_no_own_instructions_witness :
    (BwrapSandbox.nvidia bwA ⟨⟨["x"], 0⟩, [Feat.gpu]⟩).2 = true ∧
    (BwrapSandbox.nvidia bwA ⟨⟨["x"], 0⟩, [Feat.gpu]⟩).1.st.args = ["x"] := by
  simpa using nvidia_fault_no_own_instructions bwA ⟨⟨["x"], 0⟩, [Feat.gpu]⟩
    rfl (by decide) (by decide)

/-- C5 counterexample: for the pair `(/home/alice/x, /home/alice/y)`
under host home `/home/alice`, the emitted symlink instruction does NOT
carry the given paths — both endpoints were translated to the container
home. -/
theorem symlink_translates_home_paths :
    (Bwrap.symlink bwA
        [(⟨true, ["home", "alice", "x"]⟩, ⟨true, ["home", "alice", "y"]⟩)]
        ⟨[], 0⟩).args ≠
      ["--symlink", pathStr ⟨true, ["home", "alice", "x"]⟩,
       pathStr ⟨true, ["home", "alice", "y"]⟩] := by
  decide

/-- C5 (amended): `symlink` appends exactly one symlink instruction per
pair, in order, but with host-to-container path translation applied to
both endpoints (`resolve_path` with its default `translate=True`). -/
theorem symlink_emits_translated_pairs (b : Bwrap)
    (pairs : List (PPath × PPath)) (s : BwrapState) :
    Bwrap.symlink b pairs s =
      ⟨s.args ++ (pairs.map (fun pr =>
        ["--symlink", pathStr (b.resolve_path pr.1 true none),
         pathStr (b.resolve_path pr.2 true none)])).flatten, s.nextFd⟩ :=
  foldl_append_tokens _ _ (fun _ _ => rfl) pairs s

/-- C6 counterexample: constructing with an alternate rootfs raises the
`NotImplementedError` fault, but the instruction list already holds the
base-system instructions at that point — it is not empty. -/
theorem init_container_rootfs_fault_after_base :
    (Bwrap.init_container bwA (some ⟨true, ["rootfs"]⟩) false none 0).2 = true ∧
    (Bwrap.init_container bwA (some ⟨true, ["rootfs"]⟩) false none 0).1.args ≠ [] := by
  decide

/-- C6 (amended): requesting an alternate rootfs faults during
construction with exactly the fixed base-system instructions emitted and
no bind, symlink or die-with-parent instruction. -/
theorem init_container_rootfs_faults (b : Bwrap) (p : PPath)
    (keep_child : Bool) (etc_binds : Option (List String)) (fd : Nat) :
    b.init_container (some p) keep_child etc_binds fd =
      (⟨["--tmpfs", "/tmp", "--proc", "/proc", "--dev", "/dev",
         "--dir", "/etc", "--dir", "/var", "--dir", "/run",
         "--unsetenv", "TMUX", "--seccomp", toString fd], fd + 2⟩, true) := rfl

/-- C7: `clearenv` then `setenv X=1` then `keepenv Y` with `Y=2` in the
process environment appends, in order, the clear-environment instruction,
a set-instruction for `X=1` and a set-instruction for `Y=2`. -/
theorem clear_setenv_keepenv_order (b : Bwrap) (s : BwrapState)
    (hY : b.host.env "Y" = some "2") :
    b.keepenv ["Y"] (Bwrap.setenv [("X", some "1")] (Bwrap.clearenv s)) =
      ⟨s.args ++ ["--clearenv", "--setenv", "X", "1", "--setenv", "Y", "2"],
       s.nextFd⟩ := by
  have hX : ¬("X" : String) = "LC_ALL" := by decide
  simp [Bwrap.keepenv, Bwrap.setenv, Bwrap.clearenv, hY, hX]

/-- Witness for C7 on `bwA`, whose environment has `Y=2`. -/
theorem clear_setenv_keepenv_order_witness :
    Bwrap.keepenv bwA ["Y"]
        (Bwrap.setenv [("X", some "1")] (Bwrap.clearenv ⟨[], 0⟩)) =
      ⟨["--clearenv", "--setenv", "X", "1", "--setenv", "Y", "2"], 0⟩ :=
  (clear_setenv_keepenv_order bwA ⟨[], 0⟩ (by decide)).trans (by decide)

/-- C8: `setenv` emits, in the order given, one set-instruction per
pair, except that a pair with a `None` value or with the name `LC_ALL`
is silently skipped and emits nothing. -/
theorem setenv_skips_none_and_lcall (pairs : List (String × Option String))
    (s : BwrapState) :
    Bwrap.setenv pairs s =
      ⟨s.args ++ (pairs.map (fun pr =>
        match pr.2 with
        | none => []
        | some v =>
          if pr.1 = "LC_ALL" then [] else ["--setenv", pr.1, v])).flatten,
       s.nextFd⟩ := by
  refine foldl_append_tokens _ _ ?_ pairs s
  intro s pr
  obtain ⟨var, val⟩ := pr
  cases val with
  | none => simp
  | some v =>
    by_cases h : var = "LC_ALL" <;> simp [h]

/-- A relative path resolved with translation against the default anchor
lands under the container home exactly when the captured host working
directory is the host home. -/
lemma resolve_relative_cwd_home (b : Bwrap) (dest : PPath)
    (hrel : dest.absolute = false) (hcwd : b.host.cwd = b.host.home) :
    b.resolve_path dest true none = b.home.join dest := by
  obtain ⟨ab, parts⟩ := dest
  simp only at hrel
  subst hrel
  simp [Bwrap.resolve_path, PPath.join, PPath.relative_to, hcwd,
    isPrefixOf_append_self, dropLength_append]

/-- C9 counterexample: on `bwB` the captured working directory is
`/data`, so a bind with relative destination `x` and no destination
anchor emits destination `/data/x`, not the container home joined with
`x`. -/
theorem bind_relative_dest_not_home_anchored :
    (Bwrap.bind bwB ⟨true, ["s"]⟩ (some ⟨false, ["x"]⟩)
        ⟨BindMode.RO, false, none, none⟩ ⟨[], 0⟩).args ≠
      ["--ro-bind-try", "/s", pathStr (PPath.join bwB.home ⟨false, ["x"]⟩)] := by
  decide

/-- C9 (amended): the default destination anchor is the host working
directory captured at construction, translated afterwards; the emitted
destination equals the container home joined with the relative path
exactly when that working directory is the host home. -/
theorem bind_relative_dest_default_anchor (b : Bwrap) (src dest : PPath)
    (mode : BindMode) (s : BwrapState) (hrel : dest.absolute = false)
    (hcwd : b.host.cwd = b.host.home) :
    b.bind src (some dest) ⟨mode, false, none, none⟩ s =
      ⟨s.args ++ Bwrap.format_bind_args
        (pathStr (b.resolve_path src false none))
        (pathStr (b.home.join dest)) mode, s.nextFd⟩ := by
  simp [Bwrap.bind, resolve_relative_cwd_home b dest hrel hcwd]

/-- Witness for C9 on `bwA`, whose working directory is the host home. -/
theorem bind_relative_dest_default_anchor_witness :
    Bwrap.bind bwA ⟨true, ["s"]⟩ (some ⟨false, ["x"]⟩)
        ⟨BindMode.RO, false, none, none⟩ ⟨[], 0⟩ =
      ⟨["--ro-bind-try", "/s", "/home/user/x"], 0⟩ :=
  (bind_relative_dest_default_anchor bwA ⟨true, ["s"]⟩ ⟨false, ["x"]⟩
    BindMode.RO ⟨[], 0⟩ rfl rfl).trans (by decide)

/-- C10: `bind_data` with the `DEV` mode appends no bind instruction at
all — only the optional permissions token pair — while the `RO` and `RW`
modes each append exactly one bind-data instruction after it. -/
theorem bind_data_dev_mode_ignored (b : Bwrap) (dest : PPath)
    (perms : Option String) (anchor : Option PPath) (asis : Bool)
    (s : BwrapState) :
    (b.bind_data dest BindMode.DEV perms anchor asis s).args =
      s.args ++ (match perms with | some p => ["--perms", p] | none => []) ∧
    (b.bind_data dest BindMode.RO perms anchor asis s).args =
      s.args ++ (match perms with | some p => ["--perms", p] | none => []) ++
        ["--ro-bind-data", toString s.nextFd,
         pathStr (b.resolve_path dest (!asis) anchor)] ∧
    (b.bind_data dest BindMode.RW perms anchor asis s).args =
      s.args ++ (match perms with | some p => ["--perms", p] | none => []) ++
        ["--bind-data", toString s.nextFd,
         pathStr (b.resolve_path dest (!asis) anchor)] := by
  cases perms <;>
    simp [Bwrap.bind_data, Bwrap.openfd_at, Bwrap.openfd]
